import Mathlib

/-!
Verification of the noterer conversation controller
(`src/backend/ai/conversation_controller.py`).

The Python code is shallowly embedded: strings are lists of characters,
dynamically-typed JSON payloads are an inductive `Json` type, Python
exceptions are `Except Str`, and in-place mutation of a `Conversation`
object becomes explicit state passing.  The `json.loads` call of the
extractor is embedded as an executable recursive-descent parser over a
practical JSON subset (objects, arrays, strings with the common escape
sequences, integer numbers, `true`/`false`/`null`; later duplicate keys
shadow earlier ones at their original position, as in Python dicts).
The analysis-prompt construction is embedded as the always-raising
operation it is in the source (see `create_analysis_prompt`).
-/

/-- Python strings are modelled as lists of characters. -/
abbrev Str := List Char

/-- Default whitespace set of Python `str.strip` (ASCII part). -/
def pyWsChar (c : Char) : Bool :=
  c == ' ' || c == '\t' || c == '\n' || c == '\r' || c == '\x0b' || c == '\x0c'

/-- Python `str.strip()`: remove leading and trailing whitespace. -/
def strip (s : Str) : Str :=
  ((s.dropWhile pyWsChar).reverse.dropWhile pyWsChar).reverse

/-- Python slice `s[a:b]` for non-negative bounds. -/
def pySlice (s : Str) (a b : Nat) : Str :=
  (s.drop a).take (b - a)

/-- Scan of `str.find`: first absolute index (counting from `i`) at which
`needle` is a prefix of the remaining suffix. -/
def findSubAux (needle : Str) : Str → Nat → Option Nat
  | [], i => if needle.isPrefixOf [] then some i else none
  | c :: t, i =>
    if needle.isPrefixOf (c :: t) then some i else findSubAux needle t (i + 1)

/-- Python `hay.find(needle, start)`, returning `none` for `-1`. -/
def findSub (hay needle : Str) (start : Nat) : Option Nat :=
  findSubAux needle (hay.drop start) start

/-- Python `sep.join(parts)`. -/
def joinSep (sep : Str) : List Str → Str
  | [] => []
  | [x] => x
  | x :: xs => x ++ sep ++ joinSep sep xs

/-- Dynamically-typed values: the JSON payloads the controller passes
around (Python dicts, lists, strings, ints, bools, None). -/
inductive Json where
  | null : Json
  | bool : Bool → Json
  | num : Int → Json
  | strv : Str → Json
  | arr : List Json → Json
  | obj : List (Str × Json) → Json

/-- First value bound to `key` (Python dict lookup; keys produced by the
parser are unique, later duplicates having overwritten earlier ones). -/
def lookupFirst (kvs : List (Str × Json)) (key : Str) : Option Json :=
  (kvs.find? (fun kv => decide (kv.1 = key))).map Prod.snd

/-- Python `d[k] = v` on a dict: replace in place if the key exists,
otherwise append (insertion order preserved). -/
def objSet (kvs : List (Str × Json)) (k : Str) (v : Json) : List (Str × Json) :=
  if kvs.any (fun kv => decide (kv.1 = k)) then
    kvs.map (fun kv => if kv.1 = k then (k, v) else kv)
  else
    kvs ++ [(k, v)]

/-- Python truthiness of a `Json` value. -/
def jsonTruthy : Json → Bool
  | .null => false
  | .bool b => b
  | .num n => decide (n ≠ 0)
  | .strv s => !s.isEmpty
  | .arr l => !l.isEmpty
  | .obj l => !l.isEmpty

mutual

/-- Python `repr` of a `Json` value (quotes around strings). -/
def pyRepr : Json → Str
  | .null => ("None").data
  | .bool true => ("True").data
  | .bool false => ("False").data
  | .num n => (toString n).data
  | .strv s => '\x27' :: (s ++ ['\x27'])
  | .arr xs => '[' :: (pyReprList xs ++ [']'])
  | .obj kvs => '\x7b' :: (pyReprPairs kvs ++ ['\x7d'])

/-- Comma-separated reprs of the elements of a list. -/
def pyReprList : List Json → Str
  | [] => []
  | [x] => pyRepr x
  | x :: y :: xs => pyRepr x ++ (", ").data ++ pyReprList (y :: xs)

/-- Comma-separated `key: value` reprs of the entries of a dict. -/
def pyReprPairs : List (Str × Json) → Str
  | [] => []
  | [(k, v)] => ('\x27' :: (k ++ ['\x27'])) ++ (": ").data ++ pyRepr v
  | (k, v) :: y :: xs =>
    ('\x27' :: (k ++ ['\x27'])) ++ (": ").data ++ pyRepr v ++ (", ").data ++ pyReprPairs (y :: xs)

end

/-- Python `str()` applied to a `Json` value (as in f-string interpolation):
like `repr` except that a top-level string keeps no quotes. -/
def pyStr : Json → Str
  | .strv s => s
  | j => pyRepr j

/-- JSON whitespace accepted between tokens by `json.loads`. -/
def jsonWsChar (c : Char) : Bool :=
  c == ' ' || c == '\t' || c == '\n' || c == '\r'

/-- Digits of a natural number literal, most significant first. -/
def natOfDigits (ds : Str) : Nat :=
  ds.foldl (fun acc c => acc * 10 + (c.toNat - 48)) 0

/-- Parse a run of decimal digits. -/
def parseDigits (s : Str) : Option (Nat × Str) :=
  let ds := s.takeWhile Char.isDigit
  if ds.isEmpty then none else some (natOfDigits ds, s.dropWhile Char.isDigit)

/-- Parse a JSON integer literal (fractional and exponent forms are
outside the modelled subset and are rejected). -/
def parseNumber (s : Str) : Option (Json × Str) :=
  match s with
  | '-' :: t => (parseDigits t).map (fun p => (Json.num (-(p.1 : Int)), p.2))
  | _ => (parseDigits s).map (fun p => (Json.num (p.1 : Int), p.2))

/-- Parse the body of a JSON string after the opening quote, handling the
common escape sequences (`\u` escapes are outside the modelled subset). -/
def parseStringBody : Str → Str → Option (Str × Str)
  | [], _ => none
  | '"' :: t, acc => some (acc.reverse, t)
  | '\\' :: e :: t, acc =>
    if e = '"' then parseStringBody t ('"' :: acc)
    else if e = '\\' then parseStringBody t ('\\' :: acc)
    else if e = '/' then parseStringBody t ('/' :: acc)
    else if e = 'n' then parseStringBody t ('\n' :: acc)
    else if e = 't' then parseStringBody t ('\t' :: acc)
    else if e = 'r' then parseStringBody t ('\r' :: acc)
    else if e = 'b' then parseStringBody t ('\x08' :: acc)
    else if e = 'f' then parseStringBody t ('\x0c' :: acc)
    else none
  | ['\\'], _ => none
  | c :: t, acc => parseStringBody t (c :: acc)

/-- Match a literal keyword tail (`rue`, `alse`, `ull`). -/
def matchLit : Str → Str → Option Str
  | [], s => some s
  | _ :: _, [] => none
  | c :: t, d :: s => if c = d then matchLit t s else none

mutual

/-- Recursive-descent JSON value parser with fuel. -/
def parseValue : Nat → Str → Option (Json × Str)
  | 0, _ => none
  | fuel + 1, s =>
    match s.dropWhile jsonWsChar with
    | [] => none
    | c :: rest =>
      if c = '\x7b' then
        match rest.dropWhile jsonWsChar with
        | '\x7d' :: t => some (Json.obj [], t)
        | r => parseObjRest fuel r []
      else if c = '[' then
        match rest.dropWhile jsonWsChar with
        | ']' :: t => some (Json.arr [], t)
        | r => parseArrRest fuel r []
      else if c = '"' then
        (parseStringBody rest []).map (fun p => (Json.strv p.1, p.2))
      else if c = 't' then (matchLit ("rue").data rest).map (fun r => (Json.bool true, r))
      else if c = 'f' then (matchLit ("alse").data rest).map (fun r => (Json.bool false, r))
      else if c = 'n' then (matchLit ("ull").data rest).map (fun r => (Json.null, r))
      else if c = '-' || c.isDigit then parseNumber (c :: rest)
      else none

/-- Parse the members of a non-empty JSON object, accumulating entries. -/
def parseObjRest : Nat → Str → List (Str × Json) → Option (Json × Str)
  | 0, _, _ => none
  | fuel + 1, s, acc =>
    match s.dropWhile jsonWsChar with
    | '"' :: r =>
      match parseStringBody r [] with
      | none => none
      | some (k, r1) =>
        match r1.dropWhile jsonWsChar with
        | ':' :: r2 =>
          match parseValue fuel r2 with
          | none => none
          | some (v, r3) =>
            match r3.dropWhile jsonWsChar with
            | ',' :: r4 => parseObjRest fuel r4 (objSet acc k v)
            | '\x7d' :: r4 => some (Json.obj (objSet acc k v), r4)
            | _ => none
        | _ => none
    | _ => none

/-- Parse the items of a non-empty JSON array, accumulating elements. -/
def parseArrRest : Nat → Str → List Json → Option (Json × Str)
  | 0, _, _ => none
  | fuel + 1, s, acc =>
    match parseValue fuel s with
    | none => none
    | some (v, r) =>
      match r.dropWhile jsonWsChar with
      | ',' :: r1 => parseArrRest fuel r1 (acc ++ [v])
      | ']' :: r1 => some (Json.arr (acc ++ [v]), r1)
      | _ => none

end

/-- Python `json.loads`: parse one complete JSON document, rejecting
trailing data. -/
def jsonLoads (s : Str) : Except Str Json :=
  match parseValue (3 * s.length + 8) s with
  | none => .error ("JSONDecodeError").data
  | some (v, rest) =>
    if (rest.dropWhile jsonWsChar).isEmpty then .ok v
    else .error ("JSONDecodeError: Extra data").data

/-- Python `"k" in x` (dict key / list element / substring membership;
`TypeError` on non-container values). -/
def pyContains (key : Str) : Json → Except Str Bool
  | .obj kvs => .ok (kvs.any (fun kv => decide (kv.1 = key)))
  | .arr xs => .ok (xs.any (fun x => match x with | .strv s => decide (s = key) | _ => false))
  | .strv s => .ok (findSub s key 0).isSome
  | _ => .error ("TypeError: argument is not iterable").data

/-- Python `x["k"]` (`TypeError` unless `x` is a dict; `KeyError` if the
key is absent). -/
def pyIndex (key : Str) : Json → Except Str Json
  | .obj kvs =>
    match lookupFirst kvs key with
    | some v => .ok v
    | none => .error ("KeyError").data
  | _ => .error ("TypeError: indices must be integers").data

/-- Python `len(x)` (`TypeError` on unsized values). -/
def pyLen : Json → Except Str Nat
  | .arr l => .ok l.length
  | .strv s => .ok s.length
  | .obj kvs => .ok kvs.length
  | _ => .error ("TypeError: object has no len").data

/-- Python `for x in j` (`TypeError` on non-iterables; a string iterates
its characters, a dict its keys). -/
def pyIter : Json → Except Str (List Json)
  | .arr l => .ok l
  | .strv s => .ok (s.map (fun c => Json.strv [c]))
  | .obj kvs => .ok (kvs.map (fun kv => Json.strv kv.1))
  | _ => .error ("TypeError: object is not iterable").data

/-- `ConversationState` enum of the controller, with its `value` strings. -/
inductive ConversationState where
  | INITIAL
  | AWAITING_USER_INPUT
  | ANALYZING
  | AWAITING_CONFIRMATION
  | EXECUTING
  | ERROR
deriving DecidableEq

/-- The `.value` string of each `ConversationState` member. -/
def ConversationState.value : ConversationState → Str
  | .INITIAL => ("initial").data
  | .AWAITING_USER_INPUT => ("awaiting_user_input").data
  | .ANALYZING => ("analyzing").data
  | .AWAITING_CONFIRMATION => ("awaiting_confirmation").data
  | .EXECUTING => ("executing").data
  | .ERROR => ("error").data

/-- `ConversationTurn`: one turn of the conversation.  `proposed_actions`
is dynamically typed (the extractor may store any JSON value found under
the `proposed_actions` key); `executed_actions` is only ever assigned a
real list.  `timestamp` is opaque, `none` standing for Python `None`. -/
structure ConversationTurn where
  user_input : Option Str
  ai_response : Option Str
  proposed_actions : Json
  confirmed : Bool
  executed_actions : List Json
  timestamp : Option Int

/-- `ConversationTurn.__init__` as invoked by `start_new_turn` (only
`user_input` supplied; the remaining fields take their defaults, and
`timestamp` is initialised to `None`). -/
def ConversationTurn.new (user_input : Option Str) : ConversationTurn :=
  { user_input := user_input
    ai_response := none
    proposed_actions := Json.arr []
    confirmed := false
    executed_actions := []
    timestamp := none }

/-- `Conversation`: ordered history of closed turns plus at most one open
current turn and a state tag. -/
structure Conversation where
  conversation_id : Option Str
  turns : List ConversationTurn
  state : ConversationState
  current_turn : Option ConversationTurn
  metadata : List (Str × Json)

/-- `Conversation.__init__`. -/
def Conversation.init (conversation_id : Option Str) : Conversation :=
  { conversation_id := conversation_id
    turns := []
    state := ConversationState.INITIAL
    current_turn := none
    metadata := [] }

/-- `Conversation.start_new_turn`: append any existing current turn to
history, then open a fresh turn and set state to ANALYZING.  Total: the
Python method cannot raise. -/
def Conversation.start_new_turn (c : Conversation) (user_input : Str) : Conversation :=
  { c with
    turns := match c.current_turn with
      | some t => c.turns ++ [t]
      | none => c.turns
    current_turn := some (ConversationTurn.new (some user_input))
    state := ConversationState.ANALYZING }

/-- `Conversation.set_proposed_actions`: record the AI response and the
proposed actions on the current turn; `ValueError` without one. -/
def Conversation.set_proposed_actions (c : Conversation) (ai_response : Str)
    (proposed_actions : Json) : Except Str Conversation :=
  match c.current_turn with
  | none => .error ("No active conversation turn").data
  | some t =>
    .ok { c with
      current_turn := some { t with ai_response := some ai_response
                                    proposed_actions := proposed_actions }
      state := ConversationState.AWAITING_CONFIRMATION }

/-- `Conversation.set_confirmation`: record the confirmation; on `False`
the turn is closed (appended, current cleared) and the state returns to
AWAITING_USER_INPUT, on `True` the turn stays open in state EXECUTING. -/
def Conversation.set_confirmation (c : Conversation) (confirmed : Bool) :
    Except Str Conversation :=
  match c.current_turn with
  | none => .error ("No active conversation turn").data
  | some t =>
    if confirmed then
      .ok { c with current_turn := some { t with confirmed := true }
                   state := ConversationState.EXECUTING }
    else
      .ok { c with turns := c.turns ++ [{ t with confirmed := false }]
                   current_turn := none
                   state := ConversationState.AWAITING_USER_INPUT }

/-- `Conversation.set_executed_actions`: record execution results and
close the turn unconditionally. -/
def Conversation.set_executed_actions (c : Conversation)
    (executed_actions : List Json) : Except Str Conversation :=
  match c.current_turn with
  | none => .error ("No active conversation turn").data
  | some t =>
    .ok { c with turns := c.turns ++ [{ t with executed_actions := executed_actions }]
                 current_turn := none
                 state := ConversationState.AWAITING_USER_INPUT }

/-- One entry of the history block built by `get_context_for_ai`
(f-string interpolation prints `None` for a missing `user_input`). -/
def renderTurn (i : Nat) (t : ConversationTurn) : Str :=
  ("Turn ").data ++ (Nat.repr (i + 1)).data ++ (":\n").data
  ++ ("User: ").data
  ++ (match t.user_input with | some u => u | none => ("None").data)
  ++ ("\n").data
  ++ (match t.ai_response with
      | some r => if r.isEmpty then [] else ("AI: ").data ++ r ++ ("\n").data
      | none => [])
  ++ (if t.confirmed then ("User confirmed actions.\n").data
      else ("User rejected actions.\n").data)
  ++ ("\n").data

/-- `Conversation.get_context_for_ai`: format the most recent `max_turns`
closed turns plus the open current turn (when that turn has a truthy
`user_input`).  `turns[-max_turns:]` with `max_turns = 0` is all turns. -/
def Conversation.get_context_for_ai (c : Conversation) (max_turns : Nat) : Str :=
  let recent_turns :=
    if c.turns.length = 0 then []
    else if max_turns = 0 then c.turns
    else c.turns.drop (c.turns.length - max_turns)
  let history := (recent_turns.enum.map (fun p => renderTurn p.1 p.2)).flatten
  match c.current_turn with
  | some t =>
    match t.user_input with
    | some u =>
      if u.isEmpty then history
      else history ++ ("Current Turn:\nUser: ").data ++ u ++ ("\n").data
    | none => history
  | none => history

/-- `ConversationalFlowController._create_analysis_prompt`.  The source
builds the prompt with a triple-quoted f-string whose JSON example keeps
single (un-doubled) braces, so the example is parsed as replacement
fields rather than text: CPython 3.11 and earlier reject the nesting at
compile time (the module cannot even be imported), and CPython 3.12 and
later (PEP 701) evaluate the nested replacement fields at call time,
ending in `str.__format__` applied to an invalid format specifier — so
every call raises `ValueError` before any prompt text is produced.  The
embedding models the importable (3.12+) semantics: the call always
raises, independently of its two arguments. -/
def create_analysis_prompt (_user_input _conversation_history : Str) : Except Str Str :=
  .error ("ValueError: Invalid format specifier").data

/-- The json-tagged opening fence searched for by the extractor. -/
def fenceJson : Str := ("```json").data

/-- The closing fence searched for by the extractor. -/
def fenceClose : Str := ("```").data

/-- The key looked up in the parsed fenced block. -/
def paKey : Str := ("proposed_actions").data

/-- `ConversationalFlowController._extract_actions_from_response`: find a
` ```json ` fence and the next ` ``` ` fence, `json.loads` the enclosed
text, and look up `proposed_actions`.  Any exception inside the `try`
block falls back to `(response, [])`; when the lookup merely finds no
key, the block is still removed from the returned display text. -/
def extract_actions_from_response (response : Str) : Str × Json :=
  match findSub response fenceJson 0 with
  | none => (response, Json.arr [])
  | some json_start =>
    match findSub response fenceClose (json_start + 6) with
    | none => (response, Json.arr [])
    | some json_end =>
      let json_str := strip (pySlice response (json_start + 7) json_end)
      match jsonLoads json_str with
      | .error _ => (response, Json.arr [])
      | .ok action_data =>
        match pyContains paKey action_data with
        | .error _ => (response, Json.arr [])
        | .ok true =>
          match pyIndex paKey action_data with
          | .error _ => (response, Json.arr [])
          | .ok proposed =>
            (strip (response.take json_start ++ response.drop (json_end + 3)), proposed)
        | .ok false =>
          (strip (response.take json_start ++ response.drop (json_end + 3)), Json.arr [])

/-- An action handler: an asynchronous capability `(Action) → result`,
raising modelled as `Except.error` carrying the exception message. -/
def Handler : Type := Json → Except Str Json

/-- First handler registered for a type string (Python dict lookup). -/
def lookupHandler (handlers : List (Str × Handler)) (t : Str) : Option Handler :=
  (handlers.find? (fun kv => decide (kv.1 = t))).map Prod.snd

/-- The failed record built for a missing handler: the action fields
plus `status = failed` and the fixed `No handler available` error. -/
def failedNoHandler (kvs : List (Str × Json)) : Json :=
  Json.obj (objSet (objSet kvs ("status").data (Json.strv ("failed").data))
    ("error").data (Json.strv ("No handler available").data))

/-- The batch-level message appended to `errors` for a missing handler. -/
def noHandlerMsg (action_type : Json) : Str :=
  ("No handler available for action type: ").data ++ pyStr action_type

/-- Body of the `try` block run for one action inside
`process_confirmation`: read `action.get("type", "unknown")`, check the
handler registry (short-circuiting when it is empty or falsy), and invoke
the handler.  `Except.error` is any exception the `except` clause will
catch. -/
def tryDispatch (handlers : List (Str × Handler)) (action : Json) :
    Except Str (Json × Option Str) :=
  match action with
  | .obj kvs =>
    let action_type := (lookupFirst kvs ("type").data).getD (Json.strv ("unknown").data)
    if handlers.isEmpty then
      .ok (failedNoHandler kvs, some (noHandlerMsg action_type))
    else
      match action_type with
      | .obj _ => .error ("TypeError: unhashable type: dict").data
      | .arr _ => .error ("TypeError: unhashable type: list").data
      | .strv s =>
        match lookupHandler handlers s with
        | some h =>
          match h action with
          | .error e => .error e
          | .ok result =>
            .ok (Json.obj (objSet (objSet kvs ("status").data (Json.strv ("executed").data))
                   ("result").data result), none)
        | none => .ok (failedNoHandler kvs, some (noHandlerMsg action_type))
      | _ => .ok (failedNoHandler kvs, some (noHandlerMsg action_type))
  | _ => .error ("AttributeError: object has no attribute get").data

/-- One loop iteration of `process_confirmation`: the `try` body guarded
by the `except` clause, producing the `ExecutedAction` and the optional
batch error message.  The `except` clause itself raises (uncaught) when
the dict-spread of a non-dict action is attempted. -/
def dispatchOne (handlers : List (Str × Handler)) (action : Json) :
    Except Str (Json × Option Str) :=
  match tryDispatch handlers action with
  | .ok out => .ok out
  | .error e =>
    match action with
    | .obj kvs =>
      .ok (Json.obj (objSet (objSet kvs ("status").data (Json.strv ("failed").data))
             ("error").data (Json.strv e)),
           some (("Error executing ").data
             ++ pyStr ((lookupFirst kvs ("type").data).getD (Json.strv ("unknown").data))
             ++ (" action: ").data ++ e))
    | _ => .error ("TypeError: argument after ** must be a mapping").data

/-- The `for action in proposed_actions` loop: dispatch each action in
order, collecting executed records and batch error messages. -/
def dispatchAll (handlers : List (Str × Handler)) : List Json →
    Except Str (List Json × List Str)
  | [] => .ok ([], [])
  | a :: rest =>
    match dispatchOne handlers a with
    | .error e => .error e
    | .ok (ea, m) =>
      match dispatchAll handlers rest with
      | .error e => .error e
      | .ok (eas, errs) =>
        .ok (ea :: eas, match m with | some s => s :: errs | none => errs)

/-- The result dictionary returned by `process_confirmation`. -/
structure ConfirmResult where
  confirmed : Bool
  executed_actions : List Json
  response : Str
  conversation_state : Str

/-- Outcome of a `process_confirmation` call: the conversation object as
left behind by the call (its in-place mutations), and either the returned
dictionary or the uncaught exception. -/
structure ConfirmOutcome where
  conversation : Conversation
  result : Except Str ConfirmResult

/-- `ConversationalFlowController.process_confirmation`: record the
confirmation; on rejection return immediately with a fixed cancellation
message, otherwise dispatch every proposed action of the (still open)
current turn in order and close the turn with the collected results. -/
def process_confirmation (handlers : List (Str × Handler)) (confirmed : Bool)
    (c : Conversation) : ConfirmOutcome :=
  match c.set_confirmation confirmed with
  | .error e => { conversation := c, result := .error e }
  | .ok c1 =>
    if confirmed = false then
      { conversation := c1
        result := .ok { confirmed := false
                        executed_actions := []
                        response := ("Actions cancelled as requested.").data
                        conversation_state := c1.state.value } }
    else
      let stage : Except Str (List Json × List Str) :=
        match c1.current_turn with
        | some t =>
          if jsonTruthy t.proposed_actions then
            match pyIter t.proposed_actions with
            | .error e => .error e
            | .ok acts => dispatchAll handlers acts
          else .ok ([], [])
        | none => .ok ([], [])
      match stage with
      | .error e => { conversation := c1, result := .error e }
      | .ok (executed_actions, errors) =>
        match c1.set_executed_actions executed_actions with
        | .error e => { conversation := c1, result := .error e }
        | .ok c2 =>
          let response :=
            if errors.isEmpty then ("All actions were completed successfully.").data
            else ("Some actions could not be completed: ").data
              ++ joinSep (("; ").data) errors
          { conversation := c2
            result := .ok { confirmed := true
                            executed_actions := executed_actions
                            response := response
                            conversation_state := c2.state.value } }

/-- The dictionary returned by `AIManager.query` as the controller sees
it: a `response` text, plus an `error` text when the client caught an
API exception (in which case `response` is `"An error occurred: ..."`). -/
structure AIResult where
  error : Option Str
  response : Str

/-- The result dictionary returned by `process_user_input`. -/
structure UserInputResult where
  response : Str
  proposed_actions : Json
  requires_confirmation : Bool
  conversation_state : Str

/-- Outcome of a `process_user_input` call: the conversation object as
left behind by the call, the contents of the context list object owned
by the caller after the call (Python aliasing: `merged_context = context
or []` would alias the caller list exactly when that list is truthy, so
an `append` would be visible to the caller — though the merge is never
reached, see `create_analysis_prompt`), and either the returned
dictionary or the uncaught exception. -/
structure UserInputOutcome where
  conversation : Conversation
  caller_context_after : Option (List Json)
  result : Except Str UserInputResult

/-- The `conversation_history` context entry appended to the merged
context when the rendered history is non-empty. -/
def historyContextItem (h : Str) : Json :=
  Json.obj [(("type").data, Json.strv ("conversation_history").data),
            (("content").data, Json.strv h)]

/-- `ConversationalFlowController.process_user_input`: start a new turn,
render the history, then build the analysis prompt — which always raises
(source line 275, see `create_analysis_prompt`).  The `ValueError`
propagates with the fresh turn still attached in state ANALYZING: the
context merge (lines 278-283) never runs, the reasoning-service client
is never queried and `set_proposed_actions` is never reached.  The
remainder of the method — context merge with in-place append to a truthy
caller list, query, extraction, proposal attachment — is translated in
the unreachable `.ok` branch as written in the source; `query` stands
for the `AIManager.query` collaborator. -/
def process_user_input (query : Str → List Json → AIResult) (c : Conversation)
    (user_input : Str) (context : Option (List Json)) : UserInputOutcome :=
  let c1 := c.start_new_turn user_input
  let conversation_history := c1.get_context_for_ai 5
  match create_analysis_prompt user_input conversation_history with
  | .error e =>
    { conversation := c1, caller_context_after := context, result := .error e }
  | .ok prompt =>
    let base : List Json :=
      match context with
      | some l => if l.isEmpty then [] else l
      | none => []
    let merged_context :=
      if conversation_history.isEmpty then base
      else base ++ [historyContextItem conversation_history]
    let callerAfter : Option (List Json) :=
      match context with
      | none => none
      | some l =>
        if l.isEmpty then some l
        else if conversation_history.isEmpty then some l
        else some (l ++ [historyContextItem conversation_history])
    let result := query prompt merged_context
    let extracted := extract_actions_from_response result.response
    let afterPropose := c1.set_proposed_actions extracted.1 extracted.2
    { conversation := match afterPropose with | .ok c2 => c2 | .error _ => c1
      caller_context_after := callerAfter
      result :=
        match afterPropose with
        | .error e => .error e
        | .ok c2 =>
          match pyLen extracted.2 with
          | .error e => .error e
          | .ok n =>
            .ok { response := extracted.1
                  proposed_actions := extracted.2
                  requires_confirmation := decide (0 < n)
                  conversation_state := c2.state.value } }

/-- Conversations reachable through the data-model operations, starting
from a freshly constructed conversation. -/
inductive Reachable : Conversation → Prop where
  | init : ∀ conversation_id : Option Str, Reachable (Conversation.init conversation_id)
  | start : ∀ (c : Conversation) (u : Str), Reachable c → Reachable (c.start_new_turn u)
  | propose : ∀ (c c' : Conversation) (r : Str) (p : Json), Reachable c →
      c.set_proposed_actions r p = Except.ok c' → Reachable c'
  | confirm : ∀ (c c' : Conversation) (b : Bool), Reachable c →
      c.set_confirmation b = Except.ok c' → Reachable c'
  | exec : ∀ (c c' : Conversation) (ea : List Json), Reachable c →
      c.set_executed_actions ea = Except.ok c' → Reachable c'

/-- Iterated `start_new_turn` over a list of user inputs. -/
def startMany (c : Conversation) : List Str → Conversation
  | [] => c
  | u :: us => startMany (c.start_new_turn u) us

lemma isPrefixOf_append_self (l r : Str) : l.isPrefixOf (l ++ r) = true := by
  induction l with
  | nil => simp [List.isPrefixOf]
  | cons c t ih => simp [List.isPrefixOf, ih]

lemma findSubAux_here (needle rest : Str) (i : Nat)
    (h : needle.isPrefixOf rest = true) : findSubAux needle rest i = some i := by
  cases rest with
  | nil => simp [findSubAux, h]
  | cons c t => simp [findSubAux, h]

lemma findSubAux_skip (nrest p rest : Str) (i : Nat)
    (hp : ∀ c ∈ p, c ≠ '\x60') :
    findSubAux ('\x60' :: nrest) (p ++ rest) i
      = findSubAux ('\x60' :: nrest) rest (i + p.length) := by
  induction p generalizing i with
  | nil => simp
  | cons c t ih =>
    have hc : c ≠ '\x60' := hp c (List.mem_cons_self c t)
    have hpref : (('\x60' :: nrest).isPrefixOf (c :: (t ++ rest))) = false := by
      simp [List.isPrefixOf]
      intro h
      exact absurd h.symm hc
    have ht : ∀ x ∈ t, x ≠ '\x60' := fun x hx => hp x (List.mem_cons_of_mem c hx)
    calc findSubAux ('\x60' :: nrest) ((c :: t) ++ rest) i
        = findSubAux ('\x60' :: nrest) (t ++ rest) (i + 1) := by
          simp [findSubAux, hpref]
      _ = findSubAux ('\x60' :: nrest) rest (i + 1 + t.length) := ih (i + 1) ht
      _ = findSubAux ('\x60' :: nrest) rest (i + (c :: t).length) := by
          congr 1
          simp [List.length_cons]
          omega

lemma reachable_invariant (c : Conversation) (h : Reachable c) :
    (∀ t ∈ c.turns, t.timestamp = none) ∧
    (∀ t, c.current_turn = some t → t.timestamp = none ∧ t.executed_actions = []) := by
  induction h with
  | init conversation_id => simp [Conversation.init]
  | start c u _ ih =>
    refine ⟨?_, ?_⟩
    · intro t ht
      simp only [Conversation.start_new_turn] at ht
      cases hc : c.current_turn with
      | none =>
        rw [hc] at ht
        exact ih.1 t ht
      | some t0 =>
        rw [hc] at ht
        rcases List.mem_append.mp ht with h1 | h2
        · exact ih.1 t h1
        · have h3 : t = t0 := by simpa using h2
          rw [h3]
          exact (ih.2 t0 hc).1
    · intro t ht
      simp only [Conversation.start_new_turn] at ht
      have : t = ConversationTurn.new (some u) := by simpa using ht.symm
      subst this
      simp [ConversationTurn.new]
  | propose c c' r p _ hstep ih =>
    cases hc : c.current_turn with
    | none => simp [Conversation.set_proposed_actions, hc] at hstep
    | some t0 =>
      simp only [Conversation.set_proposed_actions, hc, Except.ok.injEq] at hstep
      obtain ⟨ht0, he0⟩ := ih.2 t0 hc
      subst hstep
      refine ⟨ih.1, ?_⟩
      intro t ht
      have : t = { t0 with ai_response := some r, proposed_actions := p } := by
        simpa using ht.symm
      subst this
      simp [ht0, he0]
  | confirm c c' b _ hstep ih =>
    cases hc : c.current_turn with
    | none => simp [Conversation.set_confirmation, hc] at hstep
    | some t0 =>
      obtain ⟨ht0, he0⟩ := ih.2 t0 hc
      cases b with
      | true =>
        simp only [Conversation.set_confirmation, hc, if_true, Except.ok.injEq] at hstep
        subst hstep
        refine ⟨ih.1, ?_⟩
        intro t ht
        have : t = { t0 with confirmed := true } := by simpa using ht.symm
        subst this
        simp [ht0, he0]
      | false =>
        simp only [Conversation.set_confirmation, hc, Bool.false_eq_true, if_false,
          Except.ok.injEq] at hstep
        subst hstep
        refine ⟨?_, ?_⟩
        · intro t ht
          rcases List.mem_append.mp ht with h1 | h2
          · exact ih.1 t h1
          · have : t = { t0 with confirmed := false } := by simpa using h2
            subst this
            simp [ht0]
        · intro t ht
          simp at ht
  | exec c c' ea _ hstep ih =>
    cases hc : c.current_turn with
    | none => simp [Conversation.set_executed_actions, hc] at hstep
    | some t0 =>
      obtain ⟨ht0, _⟩ := ih.2 t0 hc
      simp only [Conversation.set_executed_actions, hc, Except.ok.injEq] at hstep
      subst hstep
      refine ⟨?_, ?_⟩
      · intro t ht
        rcases List.mem_append.mp ht with h1 | h2
        · exact ih.1 t h1
        · have : t = { t0 with executed_actions := ea } := by simpa using h2
          subst this
          simp [ht0]
      · intro t ht
        simp at ht

lemma dispatchOne_obj_ok (handlers : List (Str × Handler)) (kvs : List (Str × Json)) :
    ∃ out, dispatchOne handlers (Json.obj kvs) = Except.ok out := by
  cases htp : tryDispatch handlers (Json.obj kvs) with
  | ok out => exact ⟨out, by simp [dispatchOne, htp]⟩
  | error e =>
    refine ⟨(Json.obj (objSet (objSet kvs ("status").data (Json.strv ("failed").data))
      ("error").data (Json.strv e)),
      some (("Error executing ").data
        ++ pyStr ((lookupFirst kvs ("type").data).getD (Json.strv ("unknown").data))
        ++ (" action: ").data ++ e)), ?_⟩
    simp [dispatchOne, htp]

lemma dispatchAll_of_objs (handlers : List (Str × Handler)) (acts : List Json)
    (h : ∀ a ∈ acts, ∃ kvs, a = Json.obj kvs) :
    ∃ eas errs, dispatchAll handlers acts = Except.ok (eas, errs) ∧
      eas.length = acts.length ∧
      ∀ i, i < acts.length → ∃ out,
        dispatchOne handlers (acts.getD i Json.null) = Except.ok out ∧
        eas.getD i Json.null = out.1 := by
  induction acts with
  | nil => exact ⟨[], [], by simp [dispatchAll], rfl, by intro i hi; simp at hi⟩
  | cons a rest ih =>
    obtain ⟨kvs, hk⟩ := h a (List.mem_cons_self a rest)
    subst hk
    obtain ⟨out, hout⟩ := dispatchOne_obj_ok handlers kvs
    obtain ⟨ea, m⟩ := out
    obtain ⟨eas, errs, hall, hlen, hidx⟩ :=
      ih (fun x hx => h x (List.mem_cons_of_mem _ hx))
    have hstep : ∀ tail, dispatchAll handlers (Json.obj kvs :: rest)
        = Except.ok (ea :: eas, tail) →
        ∃ easT errsT, dispatchAll handlers (Json.obj kvs :: rest) = Except.ok (easT, errsT) ∧
          easT.length = (Json.obj kvs :: rest).length ∧
          ∀ i, i < (Json.obj kvs :: rest).length → ∃ out,
            dispatchOne handlers ((Json.obj kvs :: rest).getD i Json.null) = Except.ok out ∧
            easT.getD i Json.null = out.1 := by
      intro tail htail
      refine ⟨ea :: eas, tail, htail, by simp [hlen], ?_⟩
      intro i hi
      cases i with
      | zero => exact ⟨(ea, m), by simpa using hout, by simp⟩
      | succ j =>
        have hj : j < rest.length := by simpa using hi
        simpa using hidx j hj
    cases m with
    | some s =>
      exact hstep (s :: errs) (by simp [dispatchAll, hout, hall])
    | none =>
      exact hstep errs (by simp [dispatchAll, hout, hall])

lemma start_new_turn_turns (c : Conversation) (u : Str) :
    (c.start_new_turn u).turns = c.turns ++ c.current_turn.toList := by
  cases hc : c.current_turn <;> simp [Conversation.start_new_turn, hc, Option.toList]

lemma start_new_turn_current (c : Conversation) (u : Str) :
    (c.start_new_turn u).current_turn = some (ConversationTurn.new (some u)) := rfl

lemma startMany_length (us : List Str) (c : Conversation) (hus : us ≠ []) :
    (startMany c us).turns.length
      = c.turns.length + c.current_turn.toList.length + (us.length - 1) := by
  induction us generalizing c with
  | nil => exact absurd rfl hus
  | cons u us ih =>
    cases us with
    | nil =>
      show (c.start_new_turn u).turns.length = _
      rw [start_new_turn_turns]
      simp
    | cons v vs =>
      show (startMany (c.start_new_turn u) (v :: vs)).turns.length = _
      rw [ih (c.start_new_turn u) (by simp)]
      rw [start_new_turn_turns, start_new_turn_current]
      simp [Option.toList]
      omega

/-- C4: with an open current turn, `set_confirmation(false)` appends that
turn (confirmed flag cleared) to history, clears the current turn and
moves to AWAITING_USER_INPUT; the `executed_actions` of the closed turn is
empty (invariant of reachable conversations); and
`process_confirmation(confirmed=false)` returns an empty executed list
and the fixed cancellation message without dispatching anything. -/
theorem claim_C4 (c : Conversation) (t : ConversationTurn)
    (handlers : List (Str × Handler))
    (hreach : Reachable c) (hcur : c.current_turn = some t) :
    c.set_confirmation false
      = Except.ok { c with turns := c.turns ++ [{ t with confirmed := false }],
                           current_turn := none,
                           state := ConversationState.AWAITING_USER_INPUT } ∧
    ({ t with confirmed := false } : ConversationTurn).executed_actions = [] ∧
    (process_confirmation handlers false c).result
      = Except.ok { confirmed := false, executed_actions := [],
                    response := ("Actions cancelled as requested.").data,
                    conversation_state := ("awaiting_user_input").data } ∧
    (process_confirmation handlers false c).conversation.state
      = ConversationState.AWAITING_USER_INPUT ∧
    (process_confirmation handlers false c).conversation.current_turn = none := by
  obtain ⟨_, he⟩ := (reachable_invariant c hreach).2 t hcur
  refine ⟨?_, he, ?_, ?_, ?_⟩
  · simp [Conversation.set_confirmation, hcur]
  · simp [process_confirmation, Conversation.set_confirmation, hcur, ConversationState.value]
  · simp [process_confirmation, Conversation.set_confirmation, hcur]
  · simp [process_confirmation, Conversation.set_confirmation, hcur]

theorem claim_C4_witness :
    (((Conversation.init none).start_new_turn ("hi").data).set_confirmation false
      = Except.ok { ((Conversation.init none).start_new_turn ("hi").data) with
          turns := [{ ConversationTurn.new (some ("hi").data) with confirmed := false }],
          current_turn := none,
          state := ConversationState.AWAITING_USER_INPUT }) ∧
    ({ ConversationTurn.new (some ("hi").data) with confirmed := false } :
        ConversationTurn).executed_actions = [] ∧
    (process_confirmation [] false
        ((Conversation.init none).start_new_turn ("hi").data)).result
      = Except.ok { confirmed := false, executed_actions := [],
                    response := ("Actions cancelled as requested.").data,
                    conversation_state := ("awaiting_user_input").data } ∧
    (process_confirmation [] false
        ((Conversation.init none).start_new_turn ("hi").data)).conversation.state
      = ConversationState.AWAITING_USER_INPUT ∧
    (process_confirmation [] false
        ((Conversation.init none).start_new_turn ("hi").data)).conversation.current_turn
      = none := by
  have h := claim_C4 ((Conversation.init none).start_new_turn ("hi").data)
    (ConversationTurn.new (some ("hi").data)) []
    (Reachable.start _ _ (Reachable.init none)) rfl
  simpa [Conversation.init, Conversation.start_new_turn] using h

/-- C5: with an open current turn, `set_confirmation(true)` merely sets
the confirmed flag and the EXECUTING state, leaving history and the open
turn in place; `set_executed_actions` then always closes the turn
(append + clear current, state AWAITING_USER_INPUT) whatever the executed
list contains, and fails with the `NoActiveTurn` error when no turn is
open. -/
theorem claim_C5 (c : Conversation) (t : ConversationTurn)
    (hcur : c.current_turn = some t) :
    c.set_confirmation true
      = Except.ok { c with current_turn := some { t with confirmed := true },
                           state := ConversationState.EXECUTING } ∧
    (∀ ea : List Json,
      ({ c with current_turn := some { t with confirmed := true },
                state := ConversationState.EXECUTING } : Conversation).set_executed_actions ea
        = Except.ok { c with
            turns := c.turns ++ [{ t with confirmed := true, executed_actions := ea }],
            current_turn := none,
            state := ConversationState.AWAITING_USER_INPUT }) ∧
    (∀ (c2 : Conversation) (ea : List Json), c2.current_turn = none →
      c2.set_executed_actions ea = Except.error ("No active conversation turn").data) := by
  refine ⟨?_, ?_, ?_⟩
  · simp [Conversation.set_confirmation, hcur]
  · intro ea
    simp [Conversation.set_executed_actions]
  · intro c2 ea h
    simp [Conversation.set_executed_actions, h]

theorem claim_C5_witness :
    (((Conversation.init none).start_new_turn ("go").data).set_confirmation true
      = Except.ok { ((Conversation.init none).start_new_turn ("go").data) with
          current_turn := some { ConversationTurn.new (some ("go").data) with confirmed := true },
          state := ConversationState.EXECUTING }) ∧
    (({ ((Conversation.init none).start_new_turn ("go").data) with
          current_turn := some { ConversationTurn.new (some ("go").data) with confirmed := true },
          state := ConversationState.EXECUTING } : Conversation).set_executed_actions
        [Json.obj [(("status").data, Json.strv ("failed").data)]]
      = Except.ok { ((Conversation.init none).start_new_turn ("go").data) with
          turns := [{ ConversationTurn.new (some ("go").data) with
            confirmed := true,
            executed_actions := [Json.obj [(("status").data, Json.strv ("failed").data)]] }],
          current_turn := none,
          state := ConversationState.AWAITING_USER_INPUT }) ∧
    ((Conversation.init none).set_executed_actions []
      = Except.error ("No active conversation turn").data) := by
  have h := claim_C5 ((Conversation.init none).start_new_turn ("go").data)
    (ConversationTurn.new (some ("go").data)) rfl
  refine ⟨h.1, ?_, h.2.2 (Conversation.init none) [] rfl⟩
  have h2 := h.2.1 [Json.obj [(("status").data, Json.strv ("failed").data)]]
  simpa [Conversation.init, Conversation.start_new_turn] using h2

/-- C6: `start_new_turn` is total (never raises): from any conversation
it sets state ANALYZING, appends the previously open turn (if any) to
history, and installs a fresh current turn; consequently N consecutive
calls starting from a fresh conversation leave exactly N−1 turns in
history. -/
theorem claim_C6 :
    (∀ (c : Conversation) (u : Str),
      (c.start_new_turn u).state = ConversationState.ANALYZING ∧
      (c.start_new_turn u).turns = c.turns ++ c.current_turn.toList ∧
      (c.start_new_turn u).current_turn = some (ConversationTurn.new (some u))) ∧
    (∀ (conversation_id : Option Str) (us : List Str), us ≠ [] →
      (startMany (Conversation.init conversation_id) us).turns.length = us.length - 1) := by
  constructor
  · intro c u
    exact ⟨rfl, start_new_turn_turns c u, rfl⟩
  · intro conversation_id us hus
    rw [startMany_length us _ hus]
    simp [Conversation.init, Option.toList]

theorem claim_C6_witness :
    (startMany (Conversation.init none)
      [("a").data, ("b").data, ("c").data]).turns.length = 2 :=
  claim_C6.2 none [("a").data, ("b").data, ("c").data] (by simp)

/-- C9: contrary to the specification (and to the source code comment
"Will be set when added to conversation"), no operation ever assigns a
`timestamp` of a turn: every turn in the history of a reachable conversation
still carries `timestamp = None` after being appended. -/
theorem claim_C9 (c : Conversation) (hreach : Reachable c) :
    ∀ t ∈ c.turns, t.timestamp = none :=
  fun t ht => (reachable_invariant c hreach).1 t ht

theorem claim_C9_witness :
    (ConversationTurn.new (some ("a").data)).timestamp = none :=
  claim_C9 (((Conversation.init none).start_new_turn ("a").data).start_new_turn ("b").data)
    (Reachable.start _ _ (Reachable.start _ _ (Reachable.init none)))
    (ConversationTurn.new (some ("a").data))
    (by simp [Conversation.start_new_turn, Conversation.init])

/-- C1: for a confirmed turn whose proposed actions are dictionaries,
`process_confirmation` returns successfully with exactly one executed
record per proposed action, in the same positions as the proposals, each
record determined by dispatching that action alone — so a handler raising
or missing for one action never prevents the dispatch attempt of any
later action in the batch. -/
theorem claim_C1 (c : Conversation) (t : ConversationTurn)
    (handlers : List (Str × Handler)) (acts : List Json)
    (hcur : c.current_turn = some t)
    (hpa : t.proposed_actions = Json.arr acts)
    (hobj : ∀ a ∈ acts, ∃ kvs, a = Json.obj kvs) :
    ∃ res, (process_confirmation handlers true c).result = Except.ok res ∧
      res.confirmed = true ∧
      res.executed_actions.length = acts.length ∧
      ∀ i, i < acts.length → ∃ out,
        dispatchOne handlers (acts.getD i Json.null) = Except.ok out ∧
        res.executed_actions.getD i Json.null = out.1 := by
  obtain ⟨eas, errs, hall, hlen, hidx⟩ := dispatchAll_of_objs handlers acts hobj
  cases acts with
  | nil =>
    refine ⟨{ confirmed := true, executed_actions := [],
              response := ("All actions were completed successfully.").data,
              conversation_state := ("awaiting_user_input").data }, ?_, rfl, rfl, ?_⟩
    · simp [process_confirmation, Conversation.set_confirmation, hcur, hpa,
        jsonTruthy, Conversation.set_executed_actions, ConversationState.value]
    · intro i hi
      simp at hi
  | cons a rest =>
    refine ⟨{ confirmed := true, executed_actions := eas,
              response := if errs.isEmpty
                then ("All actions were completed successfully.").data
                else ("Some actions could not be completed: ").data
                  ++ joinSep (("; ").data) errs,
              conversation_state := ("awaiting_user_input").data }, ?_, rfl, hlen, hidx⟩
    simp [process_confirmation, Conversation.set_confirmation, hcur, hpa,
      jsonTruthy, pyIter, hall, Conversation.set_executed_actions, ConversationState.value]

def handlersC1 : List (Str × Handler) :=
  [(("create_note").data,
    fun _ => Except.ok (Json.obj [(("note_id").data, Json.strv ("n1").data)]))]

def actNoteC1 : Json := Json.obj [(("type").data, Json.strv ("create_note").data)]

def actConceptC1 : Json := Json.obj [(("type").data, Json.strv ("create_concept").data)]

def turnC1 : ConversationTurn :=
  { ConversationTurn.new (some ("u").data) with
      proposed_actions := Json.arr [actNoteC1, actConceptC1] }

def convC1 : Conversation :=
  { Conversation.init none with
      current_turn := some turnC1
      state := ConversationState.AWAITING_CONFIRMATION }

theorem claim_C1_witness :
    ∃ res, (process_confirmation handlersC1 true convC1).result = Except.ok res ∧
      res.confirmed = true ∧
      res.executed_actions.length = [actNoteC1, actConceptC1].length ∧
      ∀ i, i < [actNoteC1, actConceptC1].length → ∃ out,
        dispatchOne handlersC1 ([actNoteC1, actConceptC1].getD i Json.null) = Except.ok out ∧
        res.executed_actions.getD i Json.null = out.1 :=
  claim_C1 convC1 turnC1 handlersC1 [actNoteC1, actConceptC1] rfl rfl
    (by
      intro a ha
      simp [actNoteC1, actConceptC1] at ha
      rcases ha with h | h <;> exact ⟨_, h⟩)

def handlersC8 : List (Str × Handler) :=
  [(("create_note").data,
    fun _ => Except.ok (Json.obj [(("note_id").data, Json.strv ("n1").data)]))]

def actC8 : Json := Json.obj [(("type").data, Json.strv ("create_concept").data)]

/-- Value bound to `"error"` in an executed-action record. -/
def errField : Json → Option Json
  | Json.obj kvs => lookupFirst kvs ("error").data
  | _ => none

/-- C8 (counterexample): for an action of type `create_concept` with no
registered handler, the `error` field of the produced `ExecutedAction` is the
fixed string `"No handler available"`, not the claimed
`"No handler available for action type: create_concept"` (which only
appears in the batch-level error message). -/
theorem claim_C8_counterexample :
    dispatchOne handlersC8 actC8
      = Except.ok (Json.obj [(("type").data, Json.strv ("create_concept").data),
            (("status").data, Json.strv ("failed").data),
            (("error").data, Json.strv ("No handler available").data)],
          some (("No handler available for action type: create_concept").data) ) ∧
    errField (Json.obj [(("type").data, Json.strv ("create_concept").data),
        (("status").data, Json.strv ("failed").data),
        (("error").data, Json.strv ("No handler available").data)])
      = some (Json.strv ("No handler available").data) ∧
    ("No handler available").data
      ≠ ("No handler available for action type: create_concept").data := by
  refine ⟨rfl, rfl, by decide⟩

/-- C8 (amended): for an action whose `type` string is absent from the
handler registry, dispatch makes no handler invocation and produces an
`ExecutedAction` with `status = failed` and `error = "No handler
available"`, while the message `"No handler available for action type:
<type>"` is emitted as the batch-level error entry. -/
theorem claim_C8 (handlers : List (Str × Handler)) (kvs : List (Str × Json)) (tname : Str)
    (htype : lookupFirst kvs ("type").data = some (Json.strv tname))
    (habs : lookupHandler handlers tname = none) :
    dispatchOne handlers (Json.obj kvs)
      = Except.ok (failedNoHandler kvs,
          some (("No handler available for action type: ").data ++ tname)) := by
  have hTry : tryDispatch handlers (Json.obj kvs)
      = Except.ok (failedNoHandler kvs, some (noHandlerMsg (Json.strv tname))) := by
    cases hhe : handlers.isEmpty with
    | true => simp [tryDispatch, htype, hhe]
    | false => simp [tryDispatch, htype, hhe, habs]
  simp [dispatchOne, hTry, noHandlerMsg, pyStr]

theorem claim_C8_witness :
    dispatchOne handlersC8 actC8
      = Except.ok (failedNoHandler [(("type").data, Json.strv ("create_concept").data)],
          some (("No handler available for action type: ").data ++ ("create_concept").data)) :=
  claim_C8 handlersC8 [(("type").data, Json.strv ("create_concept").data)]
    (("create_concept").data) rfl rfl

/-- C2: the claimed error-result handling is unreachable in the program:
prompt construction always raises (see `create_analysis_prompt`), so for
every conversation, input, context and reasoning-service behaviour,
`process_user_input` propagates the `ValueError` — the reasoning-service
client is never queried (the conclusions hold for every `query`
function), the fresh turn remains attached with no response text
recorded, and the state is left at ANALYZING. -/
theorem claim_C2 (query : Str → List Json → AIResult) (c : Conversation)
    (u : Str) (context : Option (List Json)) :
    (process_user_input query c u context).result
      = Except.error ("ValueError: Invalid format specifier").data ∧
    (process_user_input query c u context).conversation.state
      = ConversationState.ANALYZING ∧
    (process_user_input query c u context).conversation.current_turn
      = some { user_input := some u, ai_response := none,
               proposed_actions := Json.arr [], confirmed := false,
               executed_actions := [], timestamp := none } ∧
    (process_user_input query c u context).conversation.turns
      = c.turns ++ c.current_turn.toList := by
  exact ⟨rfl, rfl, rfl, start_new_turn_turns c u⟩

def qC10 : Str → List Json → AIResult :=
  fun _ _ => { error := none, response := ("ok").data }

def itemC10 : Json := Json.obj [(("type").data, Json.strv ("note").data)]

/-- C10 (counterexample): the claimed in-place append never happens:
with a non-empty caller context list and non-empty user input on a fresh
conversation, `process_user_input` raises at prompt construction before
the context merge, so the list owned by the caller still holds exactly
its original single element after the call instead of gaining the
`conversation_history` entry. -/
theorem claim_C10_counterexample :
    (process_user_input qC10 (Conversation.init none) ("hi").data
        (some [itemC10])).caller_context_after = some [itemC10] ∧
    (process_user_input qC10 (Conversation.init none) ("hi").data
        (some [itemC10])).result
      = Except.error ("ValueError: Invalid format specifier").data ∧
    [itemC10].length = 1 := by
  exact ⟨rfl, rfl, rfl⟩

/-- C10 (amended): the context list object supplied by the caller is
never mutated: every `process_user_input` call raises at prompt
construction (source line 275) before the context merge of lines
278-283, so the caller context — non-empty list, empty list or `None` —
is left untouched by the call. -/
theorem claim_C10 (query : Str → List Json → AIResult) (c : Conversation)
    (u : Str) (context : Option (List Json)) :
    (process_user_input query c u context).caller_context_after = context := rfl

def rawC3 : Str := ("Hi ```json\n\x7b\"a\": 1\x7d\n``` bye").data

/-- C3 (counterexample): on a response whose fenced block is valid JSON
but has no `proposed_actions` key, the extractor does NOT return the raw
response unchanged — it removes the fenced block from the display text
(while still returning zero actions), refuting the claimed
`(raw_response, [])` for the missing-key case. -/
theorem claim_C3_counterexample :
    (extract_actions_from_response rawC3).1 ≠ rawC3 ∧
    extract_actions_from_response rawC3 = (("Hi  bye").data, Json.arr []) := by
  refine ⟨by decide, rfl⟩

/-- C3 (amended): if no json-tagged opening fence is present, or no
closing fence follows it, or the fenced content fails to parse as JSON,
or the membership test on the parsed value raises, or the lookup of a
present `proposed_actions` key raises, the extractor returns
`(raw_response, [])` unchanged and surfaces no error; if the content
parses but the `proposed_actions` key is absent, it returns the raw
response with the fenced block removed and trimmed, still with zero
actions. -/
theorem claim_C3 (response : Str) :
    (findSub response fenceJson 0 = none →
      extract_actions_from_response response = (response, Json.arr [])) ∧
    (∀ js, findSub response fenceJson 0 = some js →
      findSub response fenceClose (js + 6) = none →
      extract_actions_from_response response = (response, Json.arr [])) ∧
    (∀ js je e, findSub response fenceJson 0 = some js →
      findSub response fenceClose (js + 6) = some je →
      jsonLoads (strip (pySlice response (js + 7) je)) = Except.error e →
      extract_actions_from_response response = (response, Json.arr [])) ∧
    (∀ js je dat e, findSub response fenceJson 0 = some js →
      findSub response fenceClose (js + 6) = some je →
      jsonLoads (strip (pySlice response (js + 7) je)) = Except.ok dat →
      pyContains paKey dat = Except.error e →
      extract_actions_from_response response = (response, Json.arr [])) ∧
    (∀ js je dat e, findSub response fenceJson 0 = some js →
      findSub response fenceClose (js + 6) = some je →
      jsonLoads (strip (pySlice response (js + 7) je)) = Except.ok dat →
      pyContains paKey dat = Except.ok true →
      pyIndex paKey dat = Except.error e →
      extract_actions_from_response response = (response, Json.arr [])) ∧
    (∀ js je dat, findSub response fenceJson 0 = some js →
      findSub response fenceClose (js + 6) = some je →
      jsonLoads (strip (pySlice response (js + 7) je)) = Except.ok dat →
      pyContains paKey dat = Except.ok false →
      extract_actions_from_response response
        = (strip (response.take js ++ response.drop (je + 3)), Json.arr [])) := by
  refine ⟨?_, ?_, ?_, ?_, ?_, ?_⟩
  · intro h
    simp [extract_actions_from_response, h]
  · intro js h1 h2
    simp [extract_actions_from_response, h1, h2]
  · intro js je e h1 h2 h3
    simp [extract_actions_from_response, h1, h2, h3]
  · intro js je dat e h1 h2 h3 h4
    simp [extract_actions_from_response, h1, h2, h3, h4]
  · intro js je dat e h1 h2 h3 h4 h5
    simp [extract_actions_from_response, h1, h2, h3, h4, h5]
  · intro js je dat h1 h2 h3 h4
    simp [extract_actions_from_response, h1, h2, h3, h4]

theorem claim_C3_witness :
    extract_actions_from_response ("Hello, no actions here.").data
      = (("Hello, no actions here.").data, Json.arr []) :=
  (claim_C3 (("Hello, no actions here.").data)).1 (by decide)

/-- C7: extractor round-trip — for prose (containing no backtick)
surrounding a single json-tagged fenced block whose backtick-free content
parses to a JSON value carrying a `proposed_actions` list, extraction
returns the surrounding prose with the fenced block physically removed
and trimmed, together with exactly the embedded action list. -/
theorem claim_C7 (pre body post : Str) (dat : Json) (acts : List Json)
    (hpre : ∀ ch ∈ pre, ch ≠ '\x60')
    (hbody : ∀ ch ∈ body, ch ≠ '\x60')
    (hload : jsonLoads (strip body) = Except.ok dat)
    (hmem : pyContains paKey dat = Except.ok true)
    (hidx : pyIndex paKey dat = Except.ok (Json.arr acts)) :
    extract_actions_from_response (pre ++ fenceJson ++ body ++ fenceClose ++ post)
      = (strip (pre ++ post), Json.arr acts) := by
  have hfj : fenceJson = '\x60' :: ("``json").data := rfl
  have hfc : fenceClose = '\x60' :: ("``").data := rfl
  have hfj7 : fenceJson.length = 7 := rfl
  have hfc3 : fenceClose.length = 3 := rfl
  have e1 : pre ++ fenceJson ++ body ++ fenceClose ++ post
      = pre ++ (fenceJson ++ (body ++ (fenceClose ++ post))) := by
    simp [List.append_assoc]
  have h1 : findSub (pre ++ fenceJson ++ body ++ fenceClose ++ post) fenceJson 0
      = some pre.length := by
    unfold findSub
    rw [List.drop_zero, e1, hfj, findSubAux_skip _ pre _ 0 hpre, ← hfj,
      findSubAux_here _ _ _ (isPrefixOf_append_self _ _)]
    simp
  have h2 : findSub (pre ++ fenceJson ++ body ++ fenceClose ++ post) fenceClose
      (pre.length + 6) = some (pre.length + 7 + body.length) := by
    unfold findSub
    have e2 : pre ++ fenceJson ++ body ++ fenceClose ++ post
        = (pre ++ ("```jso").data) ++ ('n' :: (body ++ (fenceClose ++ post))) := by
      rw [show fenceJson = ("```jso").data ++ ['n'] from rfl]
      simp [List.append_assoc]
    have hlen6 : (pre ++ ("```jso").data).length = pre.length + 6 := by simp
    rw [e2, List.drop_left' hlen6,
      show ('n' :: (body ++ (fenceClose ++ post)))
        = ['n'] ++ (body ++ (fenceClose ++ post)) from rfl,
      hfc, findSubAux_skip _ ['n'] _ _ (by decide),
      findSubAux_skip _ body _ _ hbody, ← hfc,
      findSubAux_here _ _ _ (isPrefixOf_append_self _ _)]
    congr 1
  have hlen7 : (pre ++ fenceJson).length = pre.length + 7 := by
    simp [hfj7]
  have e3 : pre ++ fenceJson ++ body ++ fenceClose ++ post
      = (pre ++ fenceJson) ++ (body ++ (fenceClose ++ post)) := by
    simp [List.append_assoc]
  have h3 : pySlice (pre ++ fenceJson ++ body ++ fenceClose ++ post) (pre.length + 7)
      (pre.length + 7 + body.length) = body := by
    unfold pySlice
    rw [e3, List.drop_left' hlen7,
      show pre.length + 7 + body.length - (pre.length + 7) = body.length by omega,
      List.take_left]
  have h4 : (pre ++ fenceJson ++ body ++ fenceClose ++ post).take pre.length = pre := by
    rw [e1, List.take_left]
  have hlenAll : (pre ++ fenceJson ++ body ++ fenceClose).length
      = pre.length + 7 + body.length + 3 := by
    simp only [List.length_append, hfj7, hfc3]
  have h5 : (pre ++ fenceJson ++ body ++ fenceClose ++ post).drop
      (pre.length + 7 + body.length + 3) = post :=
    List.drop_left' hlenAll
  simp only [extract_actions_from_response, h1, h2, h3, hload, hmem, hidx, h4, h5]

def preC7 : Str := ("Here is my plan.\n").data

def bodyC7 : Str :=
  (" \x7b\"proposed_actions\": [\x7b\"type\": \"create_note\", \"content\": \"x\"\x7d]\x7d ").data

def postC7 : Str := ("\nShall I proceed?").data

def actsC7 : List Json :=
  [Json.obj [(("type").data, Json.strv ("create_note").data),
             (("content").data, Json.strv ("x").data)]]

def datC7 : Json := Json.obj [(paKey, Json.arr actsC7)]

theorem claim_C7_witness :
    extract_actions_from_response (preC7 ++ fenceJson ++ bodyC7 ++ fenceClose ++ postC7)
      = (strip (preC7 ++ postC7), Json.arr actsC7) :=
  claim_C7 preC7 bodyC7 postC7 datC7 actsC7 (by decide) (by decide) rfl rfl rfl
